import Mathlib

/-!
Verification of the solar-analysis pipeline of `app.py` (Solar-Industry-AI-Assistant).
The numeric pipeline is embedded over exact rationals (`ℚ`); Python `round` is
round-half-to-even (`roundHalfEven` / `roundTo`), Python `int(...)` truncates toward
zero (`pyInt`), and Python `float("inf")` used as the payback sentinel is `⊤` in
`WithTop ℚ`.
-/

namespace SolarApp

/-- Python round-half-to-even (bankers rounding) to the nearest integer,
as used by the built-in `round`. -/
def roundHalfEven (x : ℚ) : ℤ :=
  if x - ⌊x⌋ < 1/2 then ⌊x⌋
  else if 1/2 < x - ⌊x⌋ then ⌊x⌋ + 1
  else if ⌊x⌋ % 2 = 0 then ⌊x⌋ else ⌊x⌋ + 1

/-- Python `round(x, n)` for `n` decimal places. -/
def roundTo (n : ℕ) (x : ℚ) : ℚ :=
  (roundHalfEven (x * 10 ^ n) : ℚ) / 10 ^ n

/-- Python `int(x)`: truncation toward zero. -/
def pyInt (x : ℚ) : ℤ :=
  if 0 ≤ x then ⌊x⌋ else ⌈x⌉

/-- Decimal string for a rational, used where the Python code interpolates
numbers into recommendation strings. -/
def ratStr (q : ℚ) : String :=
  toString q.num ++ "/" ++ toString q.den

/-- Specification record of one entry of `SOLAR_KNOWLEDGE["panel_types"]`. -/
structure PanelSpecs where
  efficiency : ℚ
  cost_per_watt : ℚ
  lifespan : ℕ
deriving DecidableEq

inductive PanelType
  | monocrystalline
  | polycrystalline
  | thin_film
deriving DecidableEq

/-- Constant `SOLAR_KNOWLEDGE["panel_types"]` from `app.py`. -/
def panelSpecs : PanelType → PanelSpecs
  | PanelType.monocrystalline => ⟨0.20, 1.20, 25⟩
  | PanelType.polycrystalline => ⟨0.16, 0.90, 25⟩
  | PanelType.thin_film => ⟨0.12, 0.70, 20⟩

def panelTypeName : PanelType → String
  | PanelType.monocrystalline => "monocrystalline"
  | PanelType.polycrystalline => "polycrystalline"
  | PanelType.thin_film => "thin_film"

/-- Constant `SOLAR_KNOWLEDGE["installation_costs"]["labor_per_panel"]`. -/
def labor_per_panel : ℚ := 150

/-- Constant `SOLAR_KNOWLEDGE["installation_costs"]["permits_and_inspection"]`. -/
def permits_and_inspection : ℚ := 2000

/-- Constant `SOLAR_KNOWLEDGE["installation_costs"]["inverter_cost"]`. -/
def inverter_cost : ℚ := 1500

/-- Constant `SOLAR_KNOWLEDGE["incentives"]["federal_tax_credit"]`. -/
def federal_tax_credit : ℚ := 0.30

/-- Constant `SOLAR_KNOWLEDGE["incentives"]["avg_electricity_rate"]`. -/
def avg_electricity_rate : ℚ := 0.13

/-- The aggregate statistics of an uploaded image: `height, width` from the
array shape, `brightness = np.mean`, `contrast = np.std`. These are the only
facts about the pixel grid that `SolarAnalyzer` reads, and they are a
deterministic function of the pixels. -/
structure ImageStats where
  width : ℕ
  height : ℕ
  brightness : ℚ
  contrast : ℚ
deriving DecidableEq

/-- Return value of `SolarAnalyzer.analyze_image_properties`. -/
structure ImageProps where
  width : ℕ
  height : ℕ
  brightness : ℚ
  contrast : ℚ
  roof_area_ratio : ℚ
deriving DecidableEq

/-- Function `SolarAnalyzer.analyze_image_properties` (app.py lines 34-53). -/
def analyze_image_properties (image : ImageStats) : ImageProps :=
  { width := image.width
    height := image.height
    brightness := image.brightness
    contrast := image.contrast
    roof_area_ratio :=
      min 0.8 (max 0.3 ((image.brightness / 255) * 0.6 + (image.contrast / 100) * 0.4)) }

/-- Return value of `SolarAnalyzer.calculate_solar_potential`. -/
structure SolarData where
  roof_area : ℤ
  max_panels : ℤ
  panel_type : PanelType
  panel_specs : PanelSpecs
  total_capacity_kw : ℚ
  annual_production_kwh : ℤ
  daily_avg_kwh : ℚ
deriving DecidableEq

/-- Formula for `total_capacity_kw` of app.py line 79 (300 W per panel). -/
def total_capacity_kw_of (max_panels : ℤ) (efficiency : ℚ) : ℚ :=
  ((max_panels : ℚ) * 300 * efficiency) / 1000

/-- Formula for `annual_production_kwh` of app.py line 82 (1500 sun hours). -/
def annual_production_of (total_capacity_kw location_factor : ℚ) : ℚ :=
  total_capacity_kw * 1500 * location_factor

/-- Function `SolarAnalyzer.calculate_solar_potential` (app.py lines 55-92). The Python
parameter `location_factor` defaults to `1.0`; here it is passed explicitly. -/
def calculate_solar_potential (image_props : ImageProps) (location_factor : ℚ) : SolarData :=
  let pixel_to_sqft_ratio : ℚ := 0.1
  let estimated_roof_area :=
    (image_props.width : ℚ) * (image_props.height : ℚ) *
      pixel_to_sqft_ratio * image_props.roof_area_ratio
  let panel_area : ℚ := 20
  let max_panels := pyInt (estimated_roof_area * 0.75 / panel_area)
  let panel_type :=
    if estimated_roof_area > 1000 then PanelType.monocrystalline
    else if estimated_roof_area > 500 then PanelType.polycrystalline
    else PanelType.thin_film
  let specs := panelSpecs panel_type
  let total_capacity_kw := total_capacity_kw_of max_panels specs.efficiency
  let annual_production_kwh := annual_production_of total_capacity_kw location_factor
  { roof_area := roundHalfEven estimated_roof_area
    max_panels := max_panels
    panel_type := panel_type
    panel_specs := specs
    total_capacity_kw := roundTo 2 total_capacity_kw
    annual_production_kwh := roundHalfEven annual_production_kwh
    daily_avg_kwh := roundTo 1 (annual_production_kwh / 365) }

/-- Return value of `SolarAnalyzer.calculate_roi_analysis`. `payback_years`
is `⊤` for Python `float("inf")`. -/
structure RoiData where
  system_cost : ℤ
  net_cost : ℤ
  annual_savings : ℤ
  payback_years : WithTop ℚ
  total_25yr_savings : ℤ
  roi_percentage : ℚ
deriving DecidableEq

/-- Local `panel_cost` of app.py line 98. -/
def panel_cost_of (max_panels : ℤ) (panel_type : PanelType) : ℚ :=
  (max_panels : ℚ) * 300 * (panelSpecs panel_type).cost_per_watt

/-- Local `labor_cost` of app.py line 99. -/
def labor_cost_of (max_panels : ℤ) : ℚ :=
  (max_panels : ℚ) * labor_per_panel

/-- Local `system_cost` of app.py lines 100-102. -/
def system_cost_of (max_panels : ℤ) (panel_type : PanelType) : ℚ :=
  panel_cost_of max_panels panel_type + labor_cost_of max_panels +
    permits_and_inspection + inverter_cost

/-- Local `net_cost` of app.py line 105. -/
def net_cost_of (max_panels : ℤ) (panel_type : PanelType) : ℚ :=
  system_cost_of max_panels panel_type * (1 - federal_tax_credit)

/-- Local `annual_savings` of app.py lines 108-109; note it reads the already
rounded `annual_production_kwh`. -/
def annual_savings_of (annual_production_kwh : ℤ) : ℚ :=
  (annual_production_kwh : ℚ) * avg_electricity_rate

/-- Local `total_25yr_savings` of app.py line 115. -/
def total_25yr_savings_of (solar_data : SolarData) : ℚ :=
  annual_savings_of solar_data.annual_production_kwh * 25 -
    net_cost_of solar_data.max_panels solar_data.panel_type

/-- Function `SolarAnalyzer.calculate_roi_analysis` (app.py lines 94-124). -/
def calculate_roi_analysis (solar_data : SolarData) : RoiData :=
  let net_cost := net_cost_of solar_data.max_panels solar_data.panel_type
  let annual_savings := annual_savings_of solar_data.annual_production_kwh
  let payback_years : WithTop ℚ :=
    if 0 < annual_savings then ((net_cost / annual_savings : ℚ) : WithTop ℚ) else ⊤
  let total_25yr_savings := annual_savings * 25 - net_cost
  { system_cost := roundHalfEven (system_cost_of solar_data.max_panels solar_data.panel_type)
    net_cost := roundHalfEven net_cost
    annual_savings := roundHalfEven annual_savings
    payback_years := WithTop.map (roundTo 1) payback_years
    total_25yr_savings := roundHalfEven total_25yr_savings
    roi_percentage :=
      if 0 < net_cost then roundTo 1 (total_25yr_savings / net_cost * 100) else 0 }

/-- Local `panel_feasibility` of app.py line 134. -/
def panel_feasibility_of (max_panels : ℤ) : ℚ :=
  min 1 ((max_panels : ℚ) / 10)

/-- Function `SolarAnalyzer.generate_confidence_score` (app.py lines 126-138). -/
def generate_confidence_score (image_props : ImageProps) (solar_data : SolarData) : ℚ :=
  let image_quality :=
    min 1 ((image_props.contrast / 50) * 0.5 + (image_props.brightness / 255) * 0.5)
  let roof_size_factor := min 1 ((solar_data.roof_area : ℚ) / 500)
  let panel_feasibility := panel_feasibility_of solar_data.max_panels
  roundTo 2 (image_quality * 0.4 + roof_size_factor * 0.3 + panel_feasibility * 0.3)

/-- Suitability conjunction of app.py lines 156-158. -/
def suitability (max_panels : ℤ) (payback_years : WithTop ℚ) (confidence : ℚ) : Bool :=
  decide (6 ≤ max_panels ∧ payback_years ≤ ((12 : ℚ) : WithTop ℚ) ∧ (0.6 : ℚ) ≤ confidence)

/-- Function `SolarAnalyzer.generate_recommendations` (app.py lines 172-193); the
message texts stand in for the Python f-strings. -/
def generate_recommendations (solar_data : SolarData) (roi_data : RoiData)
    (suitable : Bool) : List String :=
  if suitable then
    let base :=
      ["Excellent solar potential! Install " ++ toString solar_data.max_panels ++
        " " ++ panelTypeName solar_data.panel_type ++ " panels",
       "Expected ROI: " ++ ratStr roi_data.roi_percentage ++ " percent over 25 years",
       "Annual energy production: " ++ toString solar_data.annual_production_kwh ++ " kWh"]
    if roi_data.payback_years ≤ ((7 : ℚ) : WithTop ℚ) then
      base ++ ["Fast payback period - highly recommended!"]
    else base
  else
    (if solar_data.max_panels < 6 then
      ["Roof area may be too small for cost-effective installation"] else []) ++
    (if ((12 : ℚ) : WithTop ℚ) < roi_data.payback_years then
      ["Long payback period - consider energy efficiency improvements first"] else []) ++
    ["Consider consulting with local solar installer for detailed assessment"]

/-- Return value of `SolarAnalyzer.analyze_rooftop`; `analysis_timestamp`
records `datetime.now()` formatted at call time. -/
structure AnalysisResult where
  suitable : Bool
  confidence : ℚ
  solar_data : SolarData
  roi_data : RoiData
  recommendations : List String
  analysis_timestamp : String
deriving DecidableEq

/-- Function `SolarAnalyzer.analyze_rooftop` (app.py lines 140-170). The `location`
argument is accepted but never read by the body; `calculate_solar_potential`
is called without a location factor, so the default `1.0` applies. The wall
clock `datetime.now()` is passed in as the `now` argument. -/
def analyze_rooftop (image : ImageStats) (location : String) (now : String) : AnalysisResult :=
  let image_props := analyze_image_properties image
  let solar_data := calculate_solar_potential image_props 1
  let roi_data := calculate_roi_analysis solar_data
  let confidence := generate_confidence_score image_props solar_data
  let suitable := suitability solar_data.max_panels roi_data.payback_years confidence
  let recommendations := generate_recommendations solar_data roi_data suitable
  { suitable := suitable
    confidence := confidence
    solar_data := solar_data
    roi_data := roi_data
    recommendations := recommendations
    analysis_timestamp := now }

/-! Evaluation and order lemmas for the rounding primitives. -/

theorem roundHalfEven_le (x : ℚ) : (roundHalfEven x : ℚ) ≤ x + 1/2 := by
  unfold roundHalfEven
  have h1 := Int.floor_le x
  have h2 := Int.lt_floor_add_one x
  split_ifs with ha hb hc <;> push_cast <;> linarith

theorem le_roundHalfEven (x : ℚ) : x - 1/2 ≤ (roundHalfEven x : ℚ) := by
  unfold roundHalfEven
  have h1 := Int.floor_le x
  have h2 := Int.lt_floor_add_one x
  split_ifs with ha hb hc <;> push_cast <;> linarith

theorem roundHalfEven_mono {x y : ℚ} (h : x ≤ y) : roundHalfEven x ≤ roundHalfEven y := by
  by_contra hc
  push_neg at hc
  have hc1 : roundHalfEven y + 1 ≤ roundHalfEven x := hc
  have hc2 : ((roundHalfEven y : ℚ) + 1 : ℚ) ≤ (roundHalfEven x : ℚ) := by exact_mod_cast hc1
  have h1 := le_roundHalfEven y
  have h2 := roundHalfEven_le x
  have hxy : x = y := le_antisymm h (by linarith)
  subst hxy
  omega

/-- Evaluation rule for `roundHalfEven` away from ties. -/
theorem roundHalfEven_eq {x : ℚ} {n : ℤ} (h1 : (n : ℚ) - 1/2 < x) (h2 : x < (n : ℚ) + 1/2) :
    roundHalfEven x = n := by
  unfold roundHalfEven
  rcases le_or_lt (n : ℚ) x with hn | hn
  · have hf : ⌊x⌋ = n := Int.floor_eq_iff.mpr ⟨hn, by linarith⟩
    rw [hf, if_pos (by linarith)]
  · have hf : ⌊x⌋ = n - 1 := Int.floor_eq_iff.mpr ⟨by push_cast; linarith, by push_cast; linarith⟩
    rw [hf, if_neg (by push_cast; linarith), if_pos (by push_cast; linarith)]
    omega

theorem roundHalfEven_intCast (n : ℤ) : roundHalfEven (n : ℚ) = n :=
  roundHalfEven_eq (by norm_num) (by norm_num)

/-- Evaluation rule for `pyInt` on nonnegative arguments. -/
theorem pyInt_eq {x : ℚ} {n : ℤ} (h0 : 0 ≤ x) (h1 : (n : ℚ) ≤ x) (h2 : x < (n : ℚ) + 1) :
    pyInt x = n := by
  unfold pyInt
  rw [if_pos h0]
  exact Int.floor_eq_iff.mpr ⟨h1, by linarith⟩

/-- Evaluation rule for `roundTo` away from ties. -/
theorem roundTo_eval (n : ℤ) {k : ℕ} {x : ℚ}
    (h1 : (n : ℚ) - 1/2 < x * 10 ^ k) (h2 : x * 10 ^ k < (n : ℚ) + 1/2) :
    roundTo k x = (n : ℚ) / 10 ^ k := by
  unfold roundTo
  rw [roundHalfEven_eq h1 h2]

theorem roundTo_mono (n : ℕ) {x y : ℚ} (h : x ≤ y) : roundTo n x ≤ roundTo n y := by
  unfold roundTo
  have hp : (0 : ℚ) < 10 ^ n := by positivity
  have hm : ((roundHalfEven (x * 10 ^ n) : ℚ)) ≤ (roundHalfEven (y * 10 ^ n) : ℚ) := by
    exact_mod_cast roundHalfEven_mono (mul_le_mul_of_nonneg_right h (le_of_lt hp))
  exact (div_le_div_iff_of_pos_right hp).mpr hm

theorem roundTo_nonneg (n : ℕ) {x : ℚ} (h : 0 ≤ x) : 0 ≤ roundTo n x := by
  have h0 : roundTo n 0 = 0 := by
    unfold roundTo
    rw [zero_mul, show ((0 : ℚ) = ((0 : ℤ) : ℚ)) by norm_num, roundHalfEven_intCast]
    norm_num
  calc (0 : ℚ) = roundTo n 0 := h0.symm
    _ ≤ roundTo n x := roundTo_mono n h

theorem roundTo_le_one (n : ℕ) {x : ℚ} (h : x ≤ 1) : roundTo n x ≤ 1 := by
  have h1 : roundTo n 1 = 1 := by
    unfold roundTo
    rw [one_mul, show ((10 : ℚ) ^ n = ((10 ^ n : ℤ) : ℚ)) by push_cast; ring, roundHalfEven_intCast]
    push_cast
    field_simp
  calc roundTo n x ≤ roundTo n 1 := roundTo_mono n h
    _ = 1 := h1

/-- Typed validation errors of the validator component (spec section 7);
`InvalidSubject` belongs to the out-of-scope content filter and is omitted. -/
inductive ValidationError
  | ResolutionTooLow
  | ContrastTooLow
  | TooDark
  | TooBright
deriving DecidableEq

/-- Modelled from the spec: the Validator component (spec section 4.1) is not
present in `src/app.py` (the repository spans five revisions and only one is
provided). Rules are evaluated in this order, first match wins:
width or height below 300, contrast below 10, brightness below 50,
brightness above 200. -/
def validate (image : ImageStats) : Option ValidationError :=
  if image.width < 300 ∨ image.height < 300 then some ValidationError.ResolutionTooLow
  else if image.contrast < 10 then some ValidationError.ContrastTooLow
  else if image.brightness < 50 then some ValidationError.TooDark
  else if image.brightness > 200 then some ValidationError.TooBright
  else none

/-- Modelled from the spec: the `analyze` entry point of spec section 6 runs
the Validator first and aborts on failure, otherwise it runs the
`analyze_rooftop` pipeline of `src/app.py`. -/
def analyze (image : ImageStats) (location : String) (now : String) :
    Except ValidationError AnalysisResult :=
  match validate image with
  | some e => Except.error e
  | none => Except.ok (analyze_rooftop image location now)

/-! Shared helper lemmas about the knowledge-base constants and costs. -/

theorem cost_per_watt_nonneg (pt : PanelType) : 0 ≤ (panelSpecs pt).cost_per_watt := by
  cases pt <;> norm_num [panelSpecs]

theorem efficiency_nonneg (pt : PanelType) : 0 ≤ (panelSpecs pt).efficiency := by
  cases pt <;> norm_num [panelSpecs]

theorem system_cost_of_ge (mp : ℤ) (pt : PanelType) (h : 0 ≤ mp) :
    permits_and_inspection + inverter_cost ≤ system_cost_of mp pt := by
  unfold system_cost_of panel_cost_of labor_cost_of labor_per_panel
  have hq : (0 : ℚ) ≤ (mp : ℚ) := by exact_mod_cast h
  have h1 : 0 ≤ (mp : ℚ) * 300 * (panelSpecs pt).cost_per_watt :=
    mul_nonneg (by linarith) (cost_per_watt_nonneg pt)
  have h2 : 0 ≤ (mp : ℚ) * 150 := by linarith
  linarith

theorem net_cost_of_pos (mp : ℤ) (pt : PanelType) (h : 0 ≤ mp) : 0 < net_cost_of mp pt := by
  have hs := system_cost_of_ge mp pt h
  unfold permits_and_inspection inverter_cost at hs
  unfold net_cost_of federal_tax_credit
  nlinarith

/-- Intermediate value of spec Scenario 1: the roof-area ratio at
width 2000, height 1000, brightness 150, contrast 40. -/
theorem scenario1_ratio :
    (analyze_image_properties ⟨2000, 1000, 150, 40⟩).roof_area_ratio = 218/425 := by
  simp only [analyze_image_properties]
  norm_num [min_def, max_def]

theorem scenario1_max_panels :
    (calculate_solar_potential (analyze_image_properties ⟨2000, 1000, 150, 40⟩) 1).max_panels =
      3847 := by
  simp only [calculate_solar_potential, analyze_image_properties, scenario1_ratio]
  apply pyInt_eq <;> norm_num

/-! The ten claims. -/

/-- Claim C1 counterexample: at width 200, height 200, brightness 210, contrast 50
the validator fires the resolution rule first, so `analyze` returns
`ResolutionTooLow` rather than the claimed `TooBright`. -/
theorem c1_counterexample :
    analyze ⟨200, 200, 210, 50⟩ ("Average US") ("2024-01-01") =
      Except.error ValidationError.ResolutionTooLow ∧
    ValidationError.ResolutionTooLow ≠ ValidationError.TooBright :=
  ⟨rfl, by decide⟩

/-- Claim C1 (amended): every input violating a validation rule makes `analyze`
return the typed error of the first violated rule, in the order resolution,
contrast, dark, bright, and the pipeline is aborted with no estimate;
width=200, height=200 yields `ResolutionTooLow`, and brightness=210 yields
`TooBright` provided no earlier rule fires (width and height at least 300 and
contrast at least 10). -/
theorem c1_validation_short_circuits :
    (∀ (s : ImageStats) (loc now : String), s.width < 300 ∨ s.height < 300 →
        analyze s loc now = Except.error ValidationError.ResolutionTooLow) ∧
    (∀ (s : ImageStats) (loc now : String), 300 ≤ s.width → 300 ≤ s.height →
        s.contrast < 10 →
        analyze s loc now = Except.error ValidationError.ContrastTooLow) ∧
    (∀ (s : ImageStats) (loc now : String), 300 ≤ s.width → 300 ≤ s.height →
        10 ≤ s.contrast → s.brightness < 50 →
        analyze s loc now = Except.error ValidationError.TooDark) ∧
    (∀ (s : ImageStats) (loc now : String), 300 ≤ s.width → 300 ≤ s.height →
        10 ≤ s.contrast → 50 ≤ s.brightness → 200 < s.brightness →
        analyze s loc now = Except.error ValidationError.TooBright) := by
  refine ⟨?_, ?_, ?_, ?_⟩ <;> intro s loc now
  · intro h
    have hv : validate s = some ValidationError.ResolutionTooLow := by
      unfold validate
      rw [if_pos h]
    simp [analyze, hv]
  · intro hw hh hc
    have hv : validate s = some ValidationError.ContrastTooLow := by
      unfold validate
      rw [if_neg (by omega), if_pos hc]
    simp [analyze, hv]
  · intro hw hh hc hb
    have hv : validate s = some ValidationError.TooDark := by
      unfold validate
      rw [if_neg (by omega), if_neg (not_lt.mpr hc), if_pos hb]
    simp [analyze, hv]
  · intro hw hh hc hb1 hb2
    have hv : validate s = some ValidationError.TooBright := by
      unfold validate
      rw [if_neg (by omega), if_neg (not_lt.mpr hc), if_neg (not_lt.mpr hb1), if_pos hb2]
    simp [analyze, hv]

/-- Witness for C1 at concrete inputs triggering each rule. -/
theorem c1_witness :
    analyze ⟨200, 200, 210, 50⟩ ("l") ("t") = Except.error ValidationError.ResolutionTooLow ∧
    analyze ⟨300, 300, 120, 5⟩ ("l") ("t") = Except.error ValidationError.ContrastTooLow ∧
    analyze ⟨300, 300, 20, 15⟩ ("l") ("t") = Except.error ValidationError.TooDark ∧
    analyze ⟨300, 300, 210, 50⟩ ("l") ("t") = Except.error ValidationError.TooBright :=
  ⟨c1_validation_short_circuits.1 ⟨200, 200, 210, 50⟩ ("l") ("t") (by decide),
   c1_validation_short_circuits.2.1 ⟨300, 300, 120, 5⟩ ("l") ("t") (by decide) (by decide)
     (by norm_num),
   c1_validation_short_circuits.2.2.1 ⟨300, 300, 20, 15⟩ ("l") ("t") (by decide) (by decide)
     (by norm_num) (by norm_num),
   c1_validation_short_circuits.2.2.2 ⟨300, 300, 210, 50⟩ ("l") ("t") (by decide) (by decide)
     (by norm_num) (by norm_num) (by norm_num)⟩

/-- Claim C2 counterexample: on Scenario 1 the code computes
`int(102588.235... * 0.75 / 20) = int(3847.058...) = 3847`, not 3846. -/
theorem c2_counterexample :
    (calculate_solar_potential (analyze_image_properties ⟨2000, 1000, 150, 40⟩) 1).max_panels ≠
      3846 := by
  rw [scenario1_max_panels]
  omega

/-- Claim C2 (amended): for width=2000, height=1000, brightness=150, contrast=40
the ratio is the unclamped weighted sum `0.6*150/255 + 0.4*40/100 = 218/425`,
`roof_area = 102588`, `max_panels = 3847` (truncation of the unrounded
`estimated_roof_area * 0.75 / 20`), and the panel type is monocrystalline. -/
theorem c2_amended :
    (analyze_image_properties ⟨2000, 1000, 150, 40⟩).roof_area_ratio =
      (150 / 255) * 0.6 + (40 / 100) * 0.4 ∧
    (calculate_solar_potential (analyze_image_properties ⟨2000, 1000, 150, 40⟩) 1).roof_area =
      102588 ∧
    (calculate_solar_potential (analyze_image_properties ⟨2000, 1000, 150, 40⟩) 1).max_panels =
      3847 ∧
    (calculate_solar_potential (analyze_image_properties ⟨2000, 1000, 150, 40⟩) 1).panel_type =
      PanelType.monocrystalline := by
  refine ⟨by rw [scenario1_ratio]; norm_num, ?_, scenario1_max_panels, ?_⟩
  · simp only [calculate_solar_potential, analyze_image_properties, scenario1_ratio]
    apply roundHalfEven_eq <;> norm_num
  · simp only [calculate_solar_potential, analyze_image_properties, scenario1_ratio]
    rw [if_pos (by norm_num)]

/-- Claim C3 counterexample: a solar estimate with zero production has
`annual_savings = 0`, yet `roi_percentage` is `-100`, not the claimed `0`. -/
theorem c3_counterexample :
    annual_savings_of (0 : ℤ) = 0 ∧
    (calculate_roi_analysis
        ⟨0, 0, PanelType.thin_film, panelSpecs PanelType.thin_film, 0, 0, 0⟩).roi_percentage =
      -100 ∧
    ((-100 : ℚ)) ≠ 0 := by
  refine ⟨by norm_num [annual_savings_of], ?_, by norm_num⟩
  simp only [calculate_roi_analysis, net_cost_of, system_cost_of, panel_cost_of, labor_cost_of,
    annual_savings_of, permits_and_inspection, inverter_cost, federal_tax_credit,
    labor_per_panel, panelSpecs, avg_electricity_rate]
  norm_num
  rw [roundTo_eval (-1000) (by norm_num) (by norm_num)]
  norm_num

/-- Claim C3 (amended): whenever `annual_savings = 0` (with the panel count
nonnegative, as the pipeline guarantees), `payback_years` is the infinite
sentinel and no division fault occurs, but `roi_percentage` is `-100`, not `0`
(the guard returning 0 fires only for `net_cost ≤ 0`, which cannot happen). -/
theorem c3_amended :
    ∀ solar_data : SolarData, 0 ≤ solar_data.max_panels →
      annual_savings_of solar_data.annual_production_kwh = 0 →
      (calculate_roi_analysis solar_data).payback_years = ⊤ ∧
      (calculate_roi_analysis solar_data).roi_percentage = -100 := by
  intro sd hmp hann
  have hnc := net_cost_of_pos sd.max_panels sd.panel_type hmp
  constructor
  · simp only [calculate_roi_analysis]
    rw [if_neg (by rw [hann]; norm_num)]
    rfl
  · simp only [calculate_roi_analysis]
    rw [if_pos hnc]
    have harg : (annual_savings_of sd.annual_production_kwh * 25 -
        net_cost_of sd.max_panels sd.panel_type) /
          net_cost_of sd.max_panels sd.panel_type * 100 = -100 := by
      rw [hann]
      have hne := ne_of_gt hnc
      field_simp
    rw [harg, roundTo_eval (-1000) (by norm_num) (by norm_num)]
    norm_num

/-- Witness for C3 at the zero-production solar estimate. -/
theorem c3_witness :
    (0 : ℤ) ≤ 0 ∧ annual_savings_of (0 : ℤ) = 0 ∧
    ((calculate_roi_analysis
        ⟨0, 0, PanelType.thin_film, panelSpecs PanelType.thin_film, 0, 0, 0⟩).payback_years = ⊤ ∧
     (calculate_roi_analysis
        ⟨0, 0, PanelType.thin_film, panelSpecs PanelType.thin_film, 0, 0, 0⟩).roi_percentage =
       -100) :=
  ⟨le_refl 0, by norm_num [annual_savings_of],
   c3_amended ⟨0, 0, PanelType.thin_film, panelSpecs PanelType.thin_film, 0, 0, 0⟩
     (le_refl 0) (by norm_num [annual_savings_of])⟩

/-- Claim C4 counterexample: two calls on the identical image and location but
at different wall-clock times differ in the `analysis_timestamp` field, so the
outputs are not bit-identical in every field. -/
theorem c4_counterexample :
    analyze_rooftop ⟨400, 400, 120, 30⟩ ("Average US") ("2024-01-01 00:00:00") ≠
      analyze_rooftop ⟨400, 400, 120, 30⟩ ("Average US") ("2024-01-01 00:00:01") := by
  intro h
  have h2 : ("2024-01-01 00:00:00" : String) = "2024-01-01 00:00:01" :=
    congrArg AnalysisResult.analysis_timestamp h
  exact absurd h2 (by decide)

/-- Claim C4 (amended): `analyze_rooftop` is deterministic in every field
except `analysis_timestamp`: two calls with identical image and location agree
on `suitable`, `confidence`, `solar_data`, `roi_data` and `recommendations`,
while `analysis_timestamp` records the wall-clock time of the call. -/
theorem c4_amended :
    ∀ (image : ImageStats) (loc now1 now2 : String),
      (analyze_rooftop image loc now1).suitable = (analyze_rooftop image loc now2).suitable ∧
      (analyze_rooftop image loc now1).confidence =
        (analyze_rooftop image loc now2).confidence ∧
      (analyze_rooftop image loc now1).solar_data =
        (analyze_rooftop image loc now2).solar_data ∧
      (analyze_rooftop image loc now1).roi_data = (analyze_rooftop image loc now2).roi_data ∧
      (analyze_rooftop image loc now1).recommendations =
        (analyze_rooftop image loc now2).recommendations ∧
      (analyze_rooftop image loc now1).analysis_timestamp = now1 := by
  intro image loc now1 now2
  exact ⟨rfl, rfl, rfl, rfl, rfl, rfl⟩

/-- Claim C5: an analysis is suitable exactly when the panel count is at least
6, the payback period is at most 12 years, and the confidence is at least 0.6;
in particular 5 panels with payback 8 and confidence 0.7 are not suitable. -/
theorem c5_suitability :
    (∀ (image : ImageStats) (loc now : String),
        ((analyze_rooftop image loc now).suitable = true ↔
          6 ≤ (analyze_rooftop image loc now).solar_data.max_panels ∧
          (analyze_rooftop image loc now).roi_data.payback_years ≤ ((12 : ℚ) : WithTop ℚ) ∧
          (0.6 : ℚ) ≤ (analyze_rooftop image loc now).confidence)) ∧
    suitability 5 ((8 : ℚ) : WithTop ℚ) 0.7 = false := by
  constructor
  · intro image loc now
    simp only [analyze_rooftop, suitability, decide_eq_true_eq]
  · simp only [suitability, decide_eq_false_iff_not]
    intro h
    omega

/-- Claim C6: the confidence score lies in the unit interval for every
brightness in [0,255], nonnegative contrast, nonnegative roof area and
nonnegative panel count. -/
theorem c6_confidence_in_unit_interval :
    ∀ (image_props : ImageProps) (solar_data : SolarData),
      0 ≤ image_props.brightness → image_props.brightness ≤ 255 →
      0 ≤ image_props.contrast →
      0 ≤ solar_data.roof_area → 0 ≤ solar_data.max_panels →
      0 ≤ generate_confidence_score image_props solar_data ∧
        generate_confidence_score image_props solar_data ≤ 1 := by
  intro p sd hb0 hb1 hc0 hr0 hm0
  simp only [generate_confidence_score, panel_feasibility_of]
  set iq := min (1 : ℚ) (p.contrast / 50 * 0.5 + p.brightness / 255 * 0.5) with hiq
  set rf := min (1 : ℚ) ((sd.roof_area : ℚ) / 500) with hrf
  set pf := min (1 : ℚ) ((sd.max_panels : ℚ) / 10) with hpf
  have hc50 : (0 : ℚ) ≤ p.contrast / 50 := div_nonneg hc0 (by norm_num)
  have hb255 : (0 : ℚ) ≤ p.brightness / 255 := div_nonneg hb0 (by norm_num)
  have hiq0 : 0 ≤ iq :=
    le_min (by norm_num)
      (add_nonneg (mul_nonneg hc50 (by norm_num)) (mul_nonneg hb255 (by norm_num)))
  have hiq1 : iq ≤ 1 := min_le_left _ _
  have hr0q : (0 : ℚ) ≤ (sd.roof_area : ℚ) := by exact_mod_cast hr0
  have hm0q : (0 : ℚ) ≤ (sd.max_panels : ℚ) := by exact_mod_cast hm0
  have hrf0 : 0 ≤ rf := le_min (by norm_num) (div_nonneg hr0q (by norm_num))
  have hrf1 : rf ≤ 1 := min_le_left _ _
  have hpf0 : 0 ≤ pf := le_min (by norm_num) (div_nonneg hm0q (by norm_num))
  have hpf1 : pf ≤ 1 := min_le_left _ _
  constructor
  · exact roundTo_nonneg 2 (by nlinarith)
  · exact roundTo_le_one 2 (by nlinarith)

/-- Witness for C6 at the Scenario 1 statistics and estimate. -/
theorem c6_witness :
    (0 : ℚ) ≤ 150 ∧ (150 : ℚ) ≤ 255 ∧ (0 : ℚ) ≤ 40 ∧ (0 : ℤ) ≤ 102588 ∧ (0 : ℤ) ≤ 3847 ∧
    (0 ≤ generate_confidence_score ⟨2000, 1000, 150, 40, 218/425⟩
        ⟨102588, 3847, PanelType.monocrystalline, panelSpecs PanelType.monocrystalline,
          230.82, 346230, 948.6⟩ ∧
     generate_confidence_score ⟨2000, 1000, 150, 40, 218/425⟩
        ⟨102588, 3847, PanelType.monocrystalline, panelSpecs PanelType.monocrystalline,
          230.82, 346230, 948.6⟩ ≤ 1) :=
  ⟨by norm_num, by norm_num, by norm_num, by decide, by decide,
   c6_confidence_in_unit_interval ⟨2000, 1000, 150, 40, 218/425⟩
     ⟨102588, 3847, PanelType.monocrystalline, panelSpecs PanelType.monocrystalline,
       230.82, 346230, 948.6⟩
     (by norm_num) (by norm_num) (by norm_num) (by decide) (by decide)⟩

/-- Claim C7: for every brightness in [0,255] and nonnegative contrast the
roof-area ratio is clamped into [0.3, 0.8]. -/
theorem c7_ratio_in_bounds :
    ∀ image : ImageStats, 0 ≤ image.brightness → image.brightness ≤ 255 →
      0 ≤ image.contrast →
      (0.3 : ℚ) ≤ (analyze_image_properties image).roof_area_ratio ∧
      (analyze_image_properties image).roof_area_ratio ≤ (0.8 : ℚ) := by
  intro image hb0 hb1 hc0
  simp only [analyze_image_properties]
  exact ⟨le_min (by norm_num) (le_max_left _ _), min_le_left _ _⟩

/-- Witness for C7 at the Scenario 1 statistics. -/
theorem c7_witness :
    (0 : ℚ) ≤ 150 ∧ (150 : ℚ) ≤ 255 ∧ (0 : ℚ) ≤ 40 ∧
    ((0.3 : ℚ) ≤ (analyze_image_properties ⟨2000, 1000, 150, 40⟩).roof_area_ratio ∧
     (analyze_image_properties ⟨2000, 1000, 150, 40⟩).roof_area_ratio ≤ (0.8 : ℚ)) :=
  ⟨by norm_num, by norm_num, by norm_num,
   c7_ratio_in_bounds ⟨2000, 1000, 150, 40⟩ (by norm_num) (by norm_num) (by norm_num)⟩

/-- Claim C8: with the panel type and location factor held fixed, a larger
panel count never decreases the (rounded) capacity, the (rounded) annual
production, or the panel-feasibility factor. -/
theorem c8_monotone_in_max_panels :
    ∀ (mp1 mp2 : ℤ) (pt : PanelType) (lf : ℚ), 0 ≤ lf → mp1 ≤ mp2 →
      roundTo 2 (total_capacity_kw_of mp1 (panelSpecs pt).efficiency) ≤
        roundTo 2 (total_capacity_kw_of mp2 (panelSpecs pt).efficiency) ∧
      roundHalfEven (annual_production_of
          (total_capacity_kw_of mp1 (panelSpecs pt).efficiency) lf) ≤
        roundHalfEven (annual_production_of
          (total_capacity_kw_of mp2 (panelSpecs pt).efficiency) lf) ∧
      panel_feasibility_of mp1 ≤ panel_feasibility_of mp2 := by
  intro mp1 mp2 pt lf hlf h
  have hq : (mp1 : ℚ) ≤ (mp2 : ℚ) := by exact_mod_cast h
  have hcap : total_capacity_kw_of mp1 (panelSpecs pt).efficiency ≤
      total_capacity_kw_of mp2 (panelSpecs pt).efficiency := by
    unfold total_capacity_kw_of
    have h2 : (mp1 : ℚ) * 300 * (panelSpecs pt).efficiency ≤
        (mp2 : ℚ) * 300 * (panelSpecs pt).efficiency := by
      apply mul_le_mul_of_nonneg_right _ (efficiency_nonneg pt)
      linarith
    exact (div_le_div_iff_of_pos_right (by norm_num)).mpr h2
  refine ⟨roundTo_mono 2 hcap, ?_, ?_⟩
  · apply roundHalfEven_mono
    unfold annual_production_of
    apply mul_le_mul_of_nonneg_right _ hlf
    linarith
  · unfold panel_feasibility_of
    apply min_le_min le_rfl
    apply div_le_div_of_nonneg_right hq
    norm_num

/-- Witness for C8 at 5 versus 10 panels, monocrystalline, unit location. -/
theorem c8_witness :
    (0 : ℚ) ≤ 1 ∧ (5 : ℤ) ≤ 10 ∧
    (roundTo 2 (total_capacity_kw_of 5 (panelSpecs PanelType.monocrystalline).efficiency) ≤
        roundTo 2 (total_capacity_kw_of 10 (panelSpecs PanelType.monocrystalline).efficiency) ∧
      roundHalfEven (annual_production_of
          (total_capacity_kw_of 5 (panelSpecs PanelType.monocrystalline).efficiency) 1) ≤
        roundHalfEven (annual_production_of
          (total_capacity_kw_of 10 (panelSpecs PanelType.monocrystalline).efficiency) 1) ∧
      panel_feasibility_of 5 ≤ panel_feasibility_of 10) :=
  ⟨by norm_num, by omega,
   c8_monotone_in_max_panels 5 10 PanelType.monocrystalline 1 (by norm_num) (by omega)⟩

/-- Claim C9: the location selection never influences the analysis: the result
records are equal for any two locations, and the solar data is exactly the one
computed with location factor 1. -/
theorem c9_location_independent :
    ∀ (image : ImageStats) (loc1 loc2 now : String),
      analyze_rooftop image loc1 now = analyze_rooftop image loc2 now ∧
      (analyze_rooftop image loc1 now).solar_data =
        calculate_solar_potential (analyze_image_properties image) 1 := by
  intro image loc1 loc2 now
  exact ⟨rfl, rfl⟩

/-- Claim C10: for every solar estimate with nonnegative panel count the system
cost is at least permits (2000) plus inverter (1500), the net cost is strictly
positive, and `roi_percentage` is always computed by the division branch. -/
theorem c10_roi_guard_unreachable :
    ∀ solar_data : SolarData, 0 ≤ solar_data.max_panels →
      permits_and_inspection + inverter_cost ≤
        system_cost_of solar_data.max_panels solar_data.panel_type ∧
      0 < net_cost_of solar_data.max_panels solar_data.panel_type ∧
      (calculate_roi_analysis solar_data).roi_percentage =
        roundTo 1 (total_25yr_savings_of solar_data /
          net_cost_of solar_data.max_panels solar_data.panel_type * 100) := by
  intro sd hmp
  refine ⟨system_cost_of_ge sd.max_panels sd.panel_type hmp,
    net_cost_of_pos sd.max_panels sd.panel_type hmp, ?_⟩
  simp only [calculate_roi_analysis, total_25yr_savings_of]
  rw [if_pos (net_cost_of_pos sd.max_panels sd.panel_type hmp)]

/-- Witness for C10 at the zero-panel estimate. -/
theorem c10_witness :
    (0 : ℤ) ≤ 0 ∧
    (permits_and_inspection + inverter_cost ≤ system_cost_of 0 PanelType.thin_film ∧
     0 < net_cost_of 0 PanelType.thin_film ∧
     (calculate_roi_analysis
        ⟨0, 0, PanelType.thin_film, panelSpecs PanelType.thin_film, 0, 0, 0⟩).roi_percentage =
       roundTo 1 (total_25yr_savings_of
          ⟨0, 0, PanelType.thin_film, panelSpecs PanelType.thin_film, 0, 0, 0⟩ /
         net_cost_of 0 PanelType.thin_film * 100)) :=
  ⟨le_refl 0,
   c10_roi_guard_unreachable
     ⟨0, 0, PanelType.thin_film, panelSpecs PanelType.thin_film, 0, 0, 0⟩ (le_refl 0)⟩

end SolarApp
